import Mathlib

/-
  Verification development for the youtube_analytics_pipeline repository.

  The Python sources are shallowly embedded as pure Lean functions:
  - Redis hashes become association lists of field names and numeric values;
    a Redis key string such as "yt:video:v1:metrics" is represented by the
    list of its colon-separated segments, so that the Python expression
    key.split(":")[1] becomes list indexing.  Video ids are assumed not to
    contain a colon.
  - instants and durations are rationals (seconds); Python float arithmetic
    is idealized as exact rational arithmetic.
  - a Redis entry carries an optional absolute expiry instant; an entry whose
    expiry has passed behaves as absent (Redis deletes expired keys lazily).
  - the try/except blocks that turn any backend exception into None or False
    are modelled by a boolean parameter saying whether the backend call
    succeeds.
-/

namespace YtPipeline

/-- Lookup in an association list keyed by strings (first binding wins),
    mirroring access to a Python dict or a Redis hash field. -/
def slookup {α : Type} : List (String × α) → String → Option α
  | [], _ => none
  | (k, v) :: rest, key => if k = key then some v else slookup rest key

/-- HSET field semantics: overwrite the value of an existing field in place,
    or append a new field at the end of the hash. -/
def hashSet : List (String × ℚ) → String → ℚ → List (String × ℚ)
  | [], k, v => [(k, v)]
  | (k', v') :: rest, k, v =>
    if k' = k then (k, v) :: rest else (k', v') :: hashSet rest k v

/-- HMSET: set every field of the given dict in iteration order
    (`pipeline.hmset(key, metrics_str)` in `set_video_metrics`). -/
def hashMSet (fs : List (String × ℚ)) (new : List (String × ℚ)) : List (String × ℚ) :=
  new.foldl (fun acc p => hashSet acc p.1 p.2) fs

/-- HINCRBY: add a delta to a field, treating an absent field as 0.
    (Redis HINCRBY is integer-valued; the stored numeric values are
    represented as rationals here, with integer deltas.) -/
def hashIncr (fs : List (String × ℚ)) (k : String) (d : ℤ) : List (String × ℚ) :=
  hashSet fs k (((slookup fs k).getD 0) + (d : ℚ))

/-- One Redis hash together with its optional absolute expiry instant
    (none means the key has no TTL and persists). -/
structure HashEntry where
  fields : List (String × ℚ)
  expiry : Option ℚ
deriving DecidableEq

/-- The cache keyspace: full (segmented) Redis keys mapped to hash entries.
    Only video-metrics hashes live in this model, so the KEYS pattern
    "yt:video:*:metrics" used by get_trending_videos matches every key. -/
def CacheState : Type := List (List String × HashEntry)

/-- Key lookup in the cache keyspace. -/
def alookup : CacheState → List String → Option HashEntry
  | [], _ => none
  | (k, e) :: rest, key => if k = key then some e else alookup rest key

/-- Store an entry under a key, replacing any existing binding in place. -/
def updateEntry : CacheState → List String → HashEntry → CacheState
  | [], k, e => [(k, e)]
  | (k', e') :: rest, k, e =>
    if k' = k then (k, e) :: rest else (k', e') :: updateEntry rest k e

/-- The key builder: the stored key is the prefix followed by the text
    video:VIDEOID:metrics, in segment form.  The default prefix yt:
    contributes the single segment yt. -/
def mkVideoKey (pfx : List String) (vid : String) : List String :=
  pfx ++ ["video", vid, "metrics"]

/-- The default key namespace segments for prefix "yt:". -/
def defaultPfx : List String := ["yt"]

/-- RedisCache default_ttl (seconds). -/
def defaultTTL : ℚ := 3600

/-- Whether an entry is still live at the given instant. -/
def isLive (e : HashEntry) (now : ℚ) : Bool :=
  match e.expiry with
  | none => true
  | some t => decide (now < t)

/-- Lookup a key, treating an expired entry as absent. -/
def liveLookup (st : CacheState) (key : List String) (now : ℚ) : Option HashEntry :=
  match alookup st key with
  | none => none
  | some e => if isLive e now then some e else none

/-- The per-video metrics record as parsed by `get_video_metrics`:
    exactly these seven named numeric fields. -/
structure MetricsRecord where
  views : ℚ
  likes : ℚ
  watch_time : ℚ
  unique_users : ℚ
  countries_reached : ℚ
  engagement_rate : ℚ
  avg_watch_time : ℚ
deriving DecidableEq

/-- The dict → Redis hash serialization used when a record is cached
    (field iteration order of the metrics dict). -/
def recordFields (r : MetricsRecord) : List (String × ℚ) :=
  [("views", r.views), ("likes", r.likes), ("watch_time", r.watch_time),
   ("unique_users", r.unique_users), ("countries_reached", r.countries_reached),
   ("engagement_rate", r.engagement_rate), ("avg_watch_time", r.avg_watch_time)]

/-- The parse performed by `get_video_metrics`: each of the seven expected
    fields is read from the hash with default 0; fields with other names are
    ignored. -/
def parseRecord (fs : List (String × ℚ)) : MetricsRecord :=
  { views := ((slookup fs "views").getD 0)
  , likes := ((slookup fs "likes").getD 0)
  , watch_time := ((slookup fs "watch_time").getD 0)
  , unique_users := ((slookup fs "unique_users").getD 0)
  , countries_reached := ((slookup fs "countries_reached").getD 0)
  , engagement_rate := ((slookup fs "engagement_rate").getD 0)
  , avg_watch_time := ((slookup fs "avg_watch_time").getD 0) }

/-- RedisCache.get_video_metrics, happy path: HGETALL, then None when the
    hash is empty (absent or expired key), otherwise the seven-field parse. -/
def getVideoMetrics (st : CacheState) (pfx : List String) (vid : String) (now : ℚ) :
    Option MetricsRecord :=
  match liveLookup st (mkVideoKey pfx vid) now with
  | none => none
  | some e => if e.fields = [] then none else some (parseRecord e.fields)

/-- RedisCache.set_video_metrics, happy path: HMSET of the given dict into
    the (live) existing hash, then EXPIRE sets expiry to now + ttl. -/
def setVideoMetrics (st : CacheState) (pfx : List String) (vid : String)
    (fs : List (String × ℚ)) (ttl : ℚ) (now : ℚ) : CacheState :=
  let key := mkVideoKey pfx vid
  let old :=
    match liveLookup st key now with
    | some e => e.fields
    | none => []
  updateEntry st key { fields := hashMSet old fs, expiry := some (now + ttl) }

/-- RedisCache.increment_metrics, happy path: one HINCRBY per (field, delta)
    pair.  HINCRBY on an absent key creates the hash without any TTL; it
    never touches the expiry of an existing key. -/
def incrementMetrics (st : CacheState) (pfx : List String) (vid : String)
    (deltas : List (String × ℤ)) (now : ℚ) : CacheState :=
  let key := mkVideoKey pfx vid
  let old :=
    match liveLookup st key now with
    | some e => e
    | none => { fields := [], expiry := none }
  updateEntry st key
    { fields := deltas.foldl (fun fs p => hashIncr fs p.1 p.2) old.fields
    , expiry := old.expiry }

/-- get_video_metrics including its try/except: any backend failure is
    caught and reported as None, exactly like a miss. -/
def getVideoMetricsOp (backendUp : Bool) (st : CacheState) (pfx : List String)
    (vid : String) (now : ℚ) : Option MetricsRecord :=
  if backendUp then getVideoMetrics st pfx vid now else none

/-- set_video_metrics including its try/except: returns True on success and
    False on any backend failure (state unchanged on failure). -/
def setVideoMetricsOp (backendUp : Bool) (st : CacheState) (pfx : List String)
    (vid : String) (fs : List (String × ℚ)) (ttl : ℚ) (now : ℚ) : Bool × CacheState :=
  if backendUp then (true, setVideoMetrics st pfx vid fs ttl now) else (false, st)

/-- increment_metrics including its try/except: returns True on success and
    False on any backend failure (state unchanged on failure). -/
def incrementMetricsOp (backendUp : Bool) (st : CacheState) (pfx : List String)
    (vid : String) (deltas : List (String × ℤ)) (now : ℚ) : Bool × CacheState :=
  if backendUp then (true, incrementMetrics st pfx vid deltas now) else (false, st)

/-- Stable insertion of x into a list: x is placed immediately before the
    first element y with goesBefore x y, i.e. after every element it does not
    strictly precede.  Together with `sortStable` this models the result of a
    stable sort such as Python list.sort. -/
def insertSorted {α : Type} (goesBefore : α → α → Bool) (x : α) : List α → List α
  | [] => [x]
  | y :: ys => if goesBefore x y then x :: y :: ys else y :: insertSorted goesBefore x ys

/-- Stable sort: elements are inserted in input order, so elements that are
    tied under goesBefore keep their relative input order. -/
def sortStable {α : Type} (goesBefore : α → α → Bool) (l : List α) : List α :=
  l.foldl (fun acc x => insertSorted goesBefore x acc) []

/-- One entry of the get_trending_videos result: the dict literal built for
    each video key holds only these four values. -/
structure TrendingEntry where
  video_id : String
  views : ℚ
  likes : ℚ
  engagement_rate : ℚ
deriving DecidableEq

/-- The per-key dict built by MetricsService.get_trending_videos: keys with an
    empty hash are skipped, video_id is taken from segment index 1 of the key
    (which, under the default "yt:" prefix, is the literal segment "video"),
    and views, likes and engagement_rate are read with default 0. -/
def videosFromCache (st : CacheState) (now : ℚ) : List TrendingEntry :=
  st.filterMap (fun p =>
    if isLive p.2 now then
      if p.2.fields = [] then none
      else some
        { video_id := p.1.getD 1 ""
        , views := (slookup p.2.fields "views").getD 0
        , likes := (slookup p.2.fields "likes").getD 0
        , engagement_rate := (slookup p.2.fields "engagement_rate").getD 0 }
    else none)

/-- videos.sort(key=lambda x: x["engagement_rate"], reverse=True): a stable
    descending sort on engagement_rate alone; ties keep key-scan order. -/
def getTrendingVideos (st : CacheState) (now : ℚ) (limit : ℕ) : List TrendingEntry :=
  (sortStable (fun a b => decide (b.engagement_rate < a.engagement_rate))
    (videosFromCache st now)).take limit

/-- A per-video sliding window: ZADD members (serialized events) with their
    score (the event timestamp).  Redis sorted-set members are unique; ZADD of
    an existing member updates its score in place. -/
def zadd : List (String × ℚ) → String → ℚ → List (String × ℚ)
  | [], m, sc => [(m, sc)]
  | (m', sc') :: rest, m, sc =>
    if m' = m then (m, sc) :: rest else (m', sc') :: zadd rest m sc

/-- ZREMRANGEBYSCORE key -inf maxScore: drop every member with score less
    than or equal to maxScore (the range is inclusive at both ends). -/
def zremUpTo (s : List (String × ℚ)) (maxScore : ℚ) : List (String × ℚ) :=
  s.filter (fun p => decide (maxScore < p.2))

/-- RedisCache.add_to_processing_window, happy path: ZADD the event with its
    timestamp as score, then evict members with score at most
    now - window_size.  ts is the timestamp carried by the event
    (event.get with utcnow as fallback); now is the wall clock at the call. -/
def addToProcessingWindow (s : List (String × ℚ)) (member : String) (ts : ℚ)
    (now : ℚ) (windowSize : ℚ) : List (String × ℚ) :=
  zremUpTo (zadd s member ts) (now - windowSize)

/-- ZRANGE key 0 -1: all members in ascending score order.  (Redis breaks
    exact score ties lexicographically by member; the stable sort used here
    keeps insertion order instead, and no claim involves two distinct members
    with equal scores.) -/
def windowSorted (s : List (String × ℚ)) : List (String × ℚ) :=
  sortStable (fun p q => decide (p.2 < q.2)) s

/-- RedisCache.get_window_events, happy path: the members (deserialized
    events) of the window in ascending timestamp order. -/
def getWindowEvents (s : List (String × ℚ)) : List String :=
  (windowSorted s).map Prod.fst

/-- One raw event row of the durable events table, with the columns the
    aggregation queries select. -/
structure Event where
  video_id : String
  event_type : String
  user_id : String
  event_timestamp : ℚ
  watch_time : ℚ
  country_code : String
  device_type : String
  playback_quality : String
deriving DecidableEq

/-- COUNT(DISTINCT .) over a column. -/
def distinctCount (l : List String) : ℕ := l.dedup.length

/-- GROUP BY video_id: the distinct video ids, in first-appearance order
    (the group order is immaterial to every claim). -/
def videoIds (events : List Event) : List String :=
  (events.map (fun e => e.video_id)).dedup

/-- One row of the hourly GROUP BY result in
    BatchProcessor.process_hourly_aggregation. -/
structure VideoAgg where
  unique_views : ℕ
  likes : ℕ
  total_watch_time : ℚ
  unique_users : ℕ
  countries_reached : ℕ
deriving DecidableEq

/-- The aggregate columns computed for the events of one video:
    COUNT(DISTINCT CASE WHEN view THEN user_id END), COUNT(like cases),
    SUM(CASE WHEN view THEN watch_time ELSE 0 END), COUNT(DISTINCT user_id),
    COUNT(DISTINCT country_code). -/
def aggForVideo (evs : List Event) : VideoAgg :=
  { unique_views :=
      distinctCount ((evs.filter (fun e => e.event_type == "view")).map (fun e => e.user_id))
  , likes := (evs.filter (fun e => e.event_type == "like")).length
  , total_watch_time :=
      ((evs.filter (fun e => e.event_type == "view")).map (fun e => e.watch_time)).sum
  , unique_users := distinctCount (evs.map (fun e => e.user_id))
  , countries_reached := distinctCount (evs.map (fun e => e.country_code)) }

/-- timestamp.replace(minute=0, second=0, microsecond=0): truncate an
    instant to the start of its hour. -/
def hourFloor (t : ℚ) : ℚ := 3600 * (⌊t / 3600⌋ : ℤ)

/-- The SQL of process_hourly_aggregation: raw events with
    hour_start <= event_timestamp < hour_start + 1h, grouped by video_id. -/
def processHourlyAggregation (events : List Event) (ts : ℚ) : List (String × VideoAgg) :=
  let hs := hourFloor ts
  let window := events.filter
    (fun e => decide (hs ≤ e.event_timestamp) && decide (e.event_timestamp < hs + 3600))
  (videoIds window).map
    (fun v => (v, aggForVideo (window.filter (fun e => e.video_id == v))))

/-- The nested metrics dict built per video by
    BatchProcessor._process_aggregation_results. -/
structure AggMetrics where
  unique_views : ℕ
  likes : ℕ
  total_watch_time : ℚ
  unique_users : ℕ
  countries_reached : ℕ
  engagement_rate : ℚ
  avg_watch_time : ℚ
deriving DecidableEq

/-- BatchProcessor._process_aggregation_results: one (video_id, timestamp,
    metrics) triple per aggregation row, with engagement_rate and
    avg_watch_time derived from the row (0 when unique_views = 0). -/
def processAggregationResults (rows : List (String × VideoAgg)) (ts : ℚ) :
    List (String × ℚ × AggMetrics) :=
  rows.map (fun p =>
    (p.1, ts,
      { unique_views := p.2.unique_views
      , likes := p.2.likes
      , total_watch_time := p.2.total_watch_time
      , unique_users := p.2.unique_users
      , countries_reached := p.2.countries_reached
      , engagement_rate :=
          if p.2.unique_views > 0 then (p.2.likes : ℚ) / (p.2.unique_views : ℚ) else 0
      , avg_watch_time :=
          if p.2.unique_views > 0 then p.2.total_watch_time / (p.2.unique_views : ℚ) else 0 }))

/-- process_hourly_aggregation followed by _process_aggregation_results,
    both stamped with the truncated hour start. -/
def processHourlyJob (events : List Event) (ts : ℚ) : List (String × ℚ × AggMetrics) :=
  processAggregationResults (processHourlyAggregation events ts) (hourFloor ts)

/-- One flattened row of the durable aggregated table, as written by
    BatchProcessor.save_aggregations and read back by the historical query. -/
structure AggRow where
  video_id : String
  timestamp : ℚ
  unique_views : ℕ
  likes : ℕ
  total_watch_time : ℚ
  unique_users : ℕ
  countries_reached : ℕ
  engagement_rate : ℚ
  avg_watch_time : ℚ
deriving DecidableEq

/-- The rows_to_insert list built by save_aggregations: one flat row per
    video, {video_id, timestamp, **metrics}. -/
def rowsToInsert (metrics : List (String × ℚ × AggMetrics)) : List AggRow :=
  metrics.map (fun p =>
    { video_id := p.1
    , timestamp := p.2.1
    , unique_views := p.2.2.unique_views
    , likes := p.2.2.likes
    , total_watch_time := p.2.2.total_watch_time
    , unique_users := p.2.2.unique_users
    , countries_reached := p.2.2.countries_reached
    , engagement_rate := p.2.2.engagement_rate
    , avg_watch_time := p.2.2.avg_watch_time })

/-- BatchProcessor.save_aggregations: insert_rows_json is a streaming
    insert, i.e. a plain append to the aggregated table.  There is no
    upsert or key-based overwrite. -/
def saveAggregations (table : List AggRow) (metrics : List (String × ℚ × AggMetrics)) :
    List AggRow :=
  table ++ rowsToInsert metrics

/-- Number of rows the aggregated table holds for one (video_id, bucket). -/
def countRowsFor (table : List AggRow) (v : String) (ts : ℚ) : ℕ :=
  (table.filter (fun r => r.video_id == v && decide (r.timestamp = ts))).length

/-- The single result row of the historical-metrics query in
    api_server.get_historical_metrics. -/
structure HistMetrics where
  views : ℕ
  likes : ℕ
  watch_time : ℚ
  unique_users : ℕ
  countries_reached : ℕ
  engagement_rate : ℚ
  avg_watch_time : ℚ
deriving DecidableEq

/-- The SQL of api_server.get_historical_metrics over the aggregated table:
    rows for the video with timestamp BETWEEN start AND end (inclusive),
    SUM over unique_views / likes / total_watch_time / unique_users,
    MAX over countries_reached, and AVG over engagement_rate and
    avg_watch_time.  No matching rows yields the 404 path, modelled none.
    (The surrounding try/except converts the 404 into a 500 exactly as in
    MetricsService.get_video_metrics; only the aggregation itself is at
    issue here.) -/
def getHistoricalMetrics (table : List AggRow) (vid : String) (startT endT : ℚ) :
    Option HistMetrics :=
  let rows := table.filter (fun r =>
    r.video_id == vid && decide (startT ≤ r.timestamp) && decide (r.timestamp ≤ endT))
  if rows = [] then none
  else some
    { views := (rows.map (fun r => r.unique_views)).sum
    , likes := (rows.map (fun r => r.likes)).sum
    , watch_time := (rows.map (fun r => r.total_watch_time)).sum
    , unique_users := (rows.map (fun r => r.unique_users)).sum
    , countries_reached := (rows.map (fun r => r.countries_reached)).foldl max 0
    , engagement_rate := (rows.map (fun r => r.engagement_rate)).sum / (rows.length : ℚ)
    , avg_watch_time := (rows.map (fun r => r.avg_watch_time)).sum / (rows.length : ℚ) }

/-- A value of the per-video dict built by _aggregate_metrics of the second
    BatchProcessor (the file named bigquery_handler.py): either a plain
    number or a value_counts breakdown dict. -/
inductive AggValue where
  | num (q : ℚ)
  | breakdown (counts : List (String × ℕ))
deriving DecidableEq

/-- pandas value_counts().to_dict(): occurrence count per distinct value
    (dict order is immaterial to every claim). -/
def valueCounts (l : List String) : List (String × ℕ) :=
  l.dedup.map (fun s => (s, (l.filter (fun x => x == s)).length))

/-- The dict literal _aggregate_metrics builds for the events of one video; the
    engagement_rate key is added afterwards, and no avg_watch_time key is
    ever written. -/
def aggregateMetricsRecord (evs : List Event) : List (String × AggValue) :=
  let uv := distinctCount ((evs.filter (fun e => e.event_type == "view")).map (fun e => e.user_id))
  let lk := (evs.filter (fun e => e.event_type == "like")).length
  [("unique_views", AggValue.num uv)
  , ("likes", AggValue.num lk)
  , ("total_watch_time",
      AggValue.num (((evs.filter (fun e => e.event_type == "view")).map (fun e => e.watch_time)).sum))
  , ("unique_users", AggValue.num (distinctCount (evs.map (fun e => e.user_id))))
  , ("countries_reached", AggValue.num (distinctCount (evs.map (fun e => e.country_code))))
  , ("device_breakdown", AggValue.breakdown (valueCounts (evs.map (fun e => e.device_type))))
  , ("quality_breakdown", AggValue.breakdown (valueCounts (evs.map (fun e => e.playback_quality))))]
  ++ [("engagement_rate", AggValue.num (if uv > 0 then (lk : ℚ) / (uv : ℚ) else 0))]

/-- BatchProcessor._aggregate_metrics (bigquery_handler.py): the raw-event
    dataframe grouped by video_id, one metrics dict per video. -/
def aggregateMetrics (events : List Event) : List (String × List (String × AggValue)) :=
  (videoIds events).map
    (fun v => (v, aggregateMetricsRecord (events.filter (fun e => e.video_id == v))))

/-- The HTTP-level outcome of a resolver call: a metrics payload, a 404
    NotFound, or a 500 internal error. -/
inductive ResolveOutcome where
  | ok (r : MetricsRecord)
  | notFound
  | internalError
deriving DecidableEq

/-- Modelled from the spec: BigQueryHandler.get_video_metrics is called by
    MetricsService but its definition is absent from the repository sources
    (the file bigquery_handler.py holds a second BatchProcessor instead).
    Per the spec, it queries the durable store for the raw events of the one
    video inside the given time range and computes a Metrics Record from
    them (views = distinct users over view events, likes = like events,
    watch time summed over view events, engagement_rate and avg_watch_time
    derived with 0 when views = 0), yielding nothing when the store has no
    rows. -/
def bigqueryGetVideoMetrics (events : List Event) (vid : String) (startT endT : ℚ) :
    Option MetricsRecord :=
  let rows := events.filter (fun e =>
    e.video_id == vid && decide (startT ≤ e.event_timestamp) && decide (e.event_timestamp ≤ endT))
  if rows = [] then none
  else
    let views : ℕ :=
      distinctCount ((rows.filter (fun e => e.event_type == "view")).map (fun e => e.user_id))
    let likes : ℕ := (rows.filter (fun e => e.event_type == "like")).length
    let watch : ℚ := ((rows.filter (fun e => e.event_type == "view")).map (fun e => e.watch_time)).sum
    some
      { views := views
      , likes := likes
      , watch_time := watch
      , unique_users := distinctCount (rows.map (fun e => e.user_id))
      , countries_reached := distinctCount (rows.map (fun e => e.country_code))
      , engagement_rate := if views > 0 then (likes : ℚ) / (views : ℚ) else 0
      , avg_watch_time := if views > 0 then watch / (views : ℚ) else 0 }

/-- MetricsService.get_video_metrics: cache first; on a miss, the durable
    store is queried for a 5-minute trailing window ending now for that
    video; rows are cached with the default TTL and returned.  When the
    store yields no rows the code raises HTTPException(404), but that raise
    sits inside the same try whose blanket except-Exception handler
    re-raises HTTPException(500), so the caller observes a 500. -/
def serviceGetVideoMetrics (st : CacheState) (events : List Event) (vid : String)
    (now : ℚ) : ResolveOutcome × CacheState :=
  match getVideoMetrics st defaultPfx vid now with
  | some r => (ResolveOutcome.ok r, st)
  | none =>
    match bigqueryGetVideoMetrics events vid (now - 300) now with
    | some r =>
      (ResolveOutcome.ok r, setVideoMetrics st defaultPfx vid (recordFields r) defaultTTL now)
    | none => (ResolveOutcome.internalError, st)

/-- Concrete cache state for the C5 scenario: three videos cached in this
    key order: engagement 0.9 with views 5, engagement 0.9 with views 8,
    engagement 0.5 with views 10. -/
def trendingState : CacheState :=
  setVideoMetrics (setVideoMetrics (setVideoMetrics [] defaultPfx "v1"
      [("views", 5), ("likes", 1), ("engagement_rate", 9/10)] 3600 0) defaultPfx "v2"
      [("views", 8), ("likes", 2), ("engagement_rate", 9/10)] 3600 0) defaultPfx "v3"
      [("views", 10), ("likes", 3), ("engagement_rate", 1/2)] 3600 0

/-- Concrete raw events for the C2 run: a single view event for v1. -/
def rollupEvents : List Event :=
  [{ video_id := "v1", event_type := "view", user_id := "u1", event_timestamp := 100,
     watch_time := 10, country_code := "US", device_type := "mobile", playback_quality := "hd" }]

/-- The C2 bucket aggregation computed from rollupEvents at bucket time 100
    (hour start 0). -/
def rollupMetrics : List (String × ℚ × AggMetrics) := processHourlyJob rollupEvents 100

/-- Aggregate row for bucket 0: views 10, likes 2, per-bucket ratio 0.2. -/
def histRow1 : AggRow :=
  { video_id := "v1", timestamp := 0, unique_views := 10, likes := 2, total_watch_time := 100,
    unique_users := 10, countries_reached := 1, engagement_rate := 1/5, avg_watch_time := 10 }

/-- Aggregate row for bucket 3600: views 5, likes 4, per-bucket ratio 0.8. -/
def histRow2 : AggRow :=
  { video_id := "v1", timestamp := 3600, unique_views := 5, likes := 4, total_watch_time := 50,
    unique_users := 5, countries_reached := 1, engagement_rate := 4/5, avg_watch_time := 10 }

/-- The buckets of the spec example: {views 10, likes 2} and {views 5,
    likes 1}, each with per-bucket ratio 0.2. -/
def specRow1 : AggRow :=
  { video_id := "v1", timestamp := 0, unique_views := 10, likes := 2, total_watch_time := 100,
    unique_users := 10, countries_reached := 1, engagement_rate := 1/5, avg_watch_time := 10 }

/-- Second bucket of the spec example. -/
def specRow2 : AggRow :=
  { video_id := "v1", timestamp := 3600, unique_views := 5, likes := 1, total_watch_time := 50,
    unique_users := 5, countries_reached := 1, engagement_rate := 1/5, avg_watch_time := 10 }

/-- Concrete raw events for the C4 counterexample: one view event with
    watch_time 10. -/
def singleViewEvents : List Event :=
  [{ video_id := "v1", event_type := "view", user_id := "u1", event_timestamp := 100,
     watch_time := 10, country_code := "US", device_type := "mobile", playback_quality := "hd" }]

/-- Concrete aggregation rows for the C4 witness: one video with 2 unique
    views, 1 like and 30 watch-time. -/
def aggRows4 : List (String × VideoAgg) :=
  [("v1", { unique_views := 2, likes := 1, total_watch_time := 30, unique_users := 2,
            countries_reached := 1 })]

/-- The metrics _process_aggregation_results derives from aggRows4. -/
def aggMetrics4 : AggMetrics :=
  { unique_views := 2, likes := 1, total_watch_time := 30, unique_users := 2,
    countries_reached := 1, engagement_rate := 1/2, avg_watch_time := 15 }

/-- A sample metrics record used in concrete cache round-trips. -/
def sampleRec : MetricsRecord :=
  { views := 10, likes := 2, watch_time := 100, unique_users := 7, countries_reached := 3,
    engagement_rate := 1/5, avg_watch_time := 10 }

/-- A cache state holding a live entry for v1 (used for C7). -/
def liveState : CacheState :=
  [(mkVideoKey defaultPfx "v1", { fields := [("views", 10)], expiry := some 100 })]

/-- A cache state whose v1 hash misses most expected fields and carries an
    unexpected extra field (used for C10). -/
def raggedState : CacheState :=
  [(mkVideoKey defaultPfx "v1",
    { fields := [("views", 3), ("foo", 9), ("engagement_rate", 1/2)], expiry := some 100 })]

/-- A cache state holding a live two-field entry for v1 (used for C8). -/
def twoFieldState : CacheState :=
  [(mkVideoKey defaultPfx "v1", { fields := [("views", 10), ("likes", 2)], expiry := some 500 })]

/- ------------------------------------------------------------------ -/
/- Helper lemmas                                                       -/
/- ------------------------------------------------------------------ -/

theorem slookup_hashSet_self (fs : List (String × ℚ)) (k : String) (v : ℚ) :
    slookup (hashSet fs k v) k = some v := by
  induction fs with
  | nil => simp [hashSet, slookup]
  | cons p rest ih =>
    obtain ⟨k', v'⟩ := p
    by_cases h : k' = k
    · subst h; simp [hashSet, slookup]
    · simp [hashSet, slookup, h, ih]

theorem slookup_hashSet_other (fs : List (String × ℚ)) (k k2 : String) (v : ℚ)
    (hne : k2 ≠ k) : slookup (hashSet fs k v) k2 = slookup fs k2 := by
  induction fs with
  | nil => simp [hashSet, slookup, Ne.symm hne]
  | cons p rest ih =>
    obtain ⟨k', v'⟩ := p
    by_cases h : k' = k
    · subst h; simp [hashSet, slookup, Ne.symm hne]
    · by_cases h2 : k' = k2
      · subst h2; simp [hashSet, slookup, h]
      · simp [hashSet, slookup, h, h2, ih]

theorem hashSet_ne_nil (fs : List (String × ℚ)) (k : String) (v : ℚ) :
    hashSet fs k v ≠ [] := by
  cases fs with
  | nil => simp [hashSet]
  | cons p rest =>
    obtain ⟨k', v'⟩ := p
    by_cases h : k' = k <;> simp [hashSet, h]

theorem alookup_updateEntry_self (st : CacheState) (k : List String) (e : HashEntry) :
    alookup (updateEntry st k e) k = some e := by
  induction st with
  | nil => simp [updateEntry, alookup]
  | cons p rest ih =>
    obtain ⟨k', e'⟩ := p
    by_cases h : k' = k
    · subst h; simp [updateEntry, alookup]
    · simp [updateEntry, alookup, h, ih]

theorem parseRecord_hashMSet (old : List (String × ℚ)) (r : MetricsRecord) :
    parseRecord (hashMSet old (recordFields r)) = r := by
  obtain ⟨v, l, w, u, c, er, aw⟩ := r
  simp [recordFields, hashMSet, parseRecord, List.foldl,
    slookup_hashSet_self, slookup_hashSet_other]

theorem hashMSet_recordFields_ne_nil (old : List (String × ℚ)) (r : MetricsRecord) :
    hashMSet old (recordFields r) ≠ [] := by
  simp only [recordFields, hashMSet, List.foldl]
  exact hashSet_ne_nil _ _ _

theorem mem_insertSorted {α : Type} (gb : α → α → Bool) (x a : α) (l : List α) :
    a ∈ insertSorted gb x l ↔ a = x ∨ a ∈ l := by
  induction l with
  | nil => simp [insertSorted]
  | cons y ys ih =>
    by_cases h : gb x y
    · simp [insertSorted, h]
    · simp only [insertSorted, h, if_false, Bool.false_eq_true, List.mem_cons, ih]
      tauto

theorem length_insertSorted {α : Type} (gb : α → α → Bool) (x : α) (l : List α) :
    (insertSorted gb x l).length = l.length + 1 := by
  induction l with
  | nil => simp [insertSorted]
  | cons y ys ih =>
    by_cases h : gb x y <;> simp [insertSorted, h, ih]

theorem pairwise_insertSorted {α : Type} (gb : α → α → Bool) (R : α → α → Prop)
    (htrans : Transitive R)
    (h1 : ∀ a b, gb a b = true → R a b)
    (h2 : ∀ a b, gb a b = false → R b a)
    (x : α) (l : List α) (hl : l.Pairwise R) :
    (insertSorted gb x l).Pairwise R := by
  induction l with
  | nil => simp [insertSorted]
  | cons y ys ih =>
    rcases List.pairwise_cons.mp hl with ⟨hy, hys⟩
    by_cases h : gb x y
    · rw [insertSorted, if_pos h]
      refine List.pairwise_cons.mpr ⟨?_, hl⟩
      intro z hz
      rcases List.mem_cons.mp hz with hz | hz
      · exact hz ▸ h1 _ _ h
      · exact htrans (h1 _ _ h) (hy z hz)
    · rw [insertSorted, if_neg h]
      refine List.pairwise_cons.mpr ⟨?_, ih hys⟩
      intro z hz
      rcases (mem_insertSorted gb x z ys).mp hz with hz | hz
      · exact hz ▸ h2 _ _ (Bool.of_not_eq_true h)
      · exact hy z hz

theorem mem_foldl_insertSorted {α : Type} (gb : α → α → Bool) (a : α) :
    ∀ (l acc : List α),
      (a ∈ l.foldl (fun ac x => insertSorted gb x ac) acc ↔ a ∈ acc ∨ a ∈ l)
  | [], acc => by simp
  | x :: xs, acc => by
    simp only [List.foldl_cons, mem_foldl_insertSorted gb a xs, mem_insertSorted,
      List.mem_cons]
    tauto

theorem length_foldl_insertSorted {α : Type} (gb : α → α → Bool) :
    ∀ (l acc : List α),
      (l.foldl (fun ac x => insertSorted gb x ac) acc).length = acc.length + l.length
  | [], acc => by simp
  | x :: xs, acc => by
    simp only [List.foldl_cons, length_foldl_insertSorted gb xs, length_insertSorted,
      List.length_cons]
    omega

theorem pairwise_foldl_insertSorted {α : Type} (gb : α → α → Bool) (R : α → α → Prop)
    (htrans : Transitive R)
    (h1 : ∀ a b, gb a b = true → R a b)
    (h2 : ∀ a b, gb a b = false → R b a) :
    ∀ (l acc : List α), acc.Pairwise R →
      (l.foldl (fun ac x => insertSorted gb x ac) acc).Pairwise R
  | [], _, hacc => hacc
  | x :: xs, acc, hacc => by
    simp only [List.foldl_cons]
    exact pairwise_foldl_insertSorted gb R htrans h1 h2 xs _
      (pairwise_insertSorted gb R htrans h1 h2 x acc hacc)

theorem mem_sortStable {α : Type} (gb : α → α → Bool) (a : α) (l : List α) :
    a ∈ sortStable gb l ↔ a ∈ l := by
  simp [sortStable, mem_foldl_insertSorted]

theorem length_sortStable {α : Type} (gb : α → α → Bool) (l : List α) :
    (sortStable gb l).length = l.length := by
  simp [sortStable, length_foldl_insertSorted]

theorem pairwise_sortStable {α : Type} (gb : α → α → Bool) (R : α → α → Prop)
    (htrans : Transitive R)
    (h1 : ∀ a b, gb a b = true → R a b)
    (h2 : ∀ a b, gb a b = false → R b a)
    (l : List α) : (sortStable gb l).Pairwise R :=
  pairwise_foldl_insertSorted gb R htrans h1 h2 l [] (List.Pairwise.nil)

theorem videosFromCache_trendingState :
    videosFromCache trendingState 0 =
      [{ video_id := "video", views := 5, likes := 1, engagement_rate := 9/10 },
       { video_id := "video", views := 8, likes := 2, engagement_rate := 9/10 },
       { video_id := "video", views := 10, likes := 3, engagement_rate := 1/2 }] := by
  have h36 : ((0:ℚ) < 0 + 3600) := by norm_num
  simp [videosFromCache, trendingState, setVideoMetrics, liveLookup, alookup, updateEntry,
    hashMSet, hashSet, slookup, mkVideoKey, defaultPfx, isLive, List.foldl, List.filterMap,
    List.getD, h36]

/- ------------------------------------------------------------------ -/
/- Claim theorems                                                      -/
/- ------------------------------------------------------------------ -/

/-- C6: a cache set of a metrics record followed by a get before the TTL has
    expired returns the written record unchanged; a get after the TTL has
    expired, or for an absent key, returns Miss (None). -/
theorem cache_set_get_ttl (st : CacheState) (pfx : List String) (vid : String)
    (r : MetricsRecord) (ttl t0 t1 : ℚ) :
    (t1 < t0 + ttl →
      getVideoMetrics (setVideoMetrics st pfx vid (recordFields r) ttl t0) pfx vid t1 = some r)
    ∧ (t0 + ttl ≤ t1 →
      getVideoMetrics (setVideoMetrics st pfx vid (recordFields r) ttl t0) pfx vid t1 = none)
    ∧ getVideoMetrics [] pfx vid t1 = none := by
  refine ⟨?_, ?_, rfl⟩
  · intro h
    simp [setVideoMetrics, getVideoMetrics, liveLookup, alookup_updateEntry_self, isLive, h,
      hashMSet_recordFields_ne_nil, parseRecord_hashMSet]
  · intro h
    simp [setVideoMetrics, getVideoMetrics, liveLookup, alookup_updateEntry_self, isLive,
      not_lt.mpr h]

/-- C6 witness: setting a sample record at time 0 with TTL 3600 and reading
    it back at time 10 returns the record. -/
theorem cache_set_get_ttl_witness :
    getVideoMetrics (setVideoMetrics [] defaultPfx "v1" (recordFields sampleRec) 3600 0)
      defaultPfx "v1" 10 = some sampleRec :=
  (cache_set_get_ttl [] defaultPfx "v1" sampleRec 3600 0 10).1 (by norm_num)

/-- C7 counterexample: the claim says a backend I/O failure is
    distinguishable from an ordinary miss, but a failed get returns None on
    a state that holds a live record for the key — the very value an
    ordinary miss on an empty cache returns. -/
theorem cache_failure_indistinguishable_cex :
    getVideoMetricsOp false liveState defaultPfx "v1" 0 = none
    ∧ getVideoMetricsOp true [] defaultPfx "v1" 0 = none := ⟨rfl, rfl⟩

/-- C7 (amended): a backend failure during get is reported as None, the
    same value an ordinary miss produces, so callers cannot tell the two
    apart; set and increment report backend failure only as the boolean
    False. -/
theorem cache_failure_reporting (st : CacheState) (pfx : List String) (vid : String)
    (now : ℚ) (fs : List (String × ℚ)) (ttl : ℚ) (deltas : List (String × ℤ)) :
    getVideoMetricsOp false st pfx vid now = none
    ∧ getVideoMetricsOp false st pfx vid now = getVideoMetricsOp true [] pfx vid now
    ∧ (setVideoMetricsOp false st pfx vid fs ttl now).1 = false
    ∧ (incrementMetricsOp false st pfx vid deltas now).1 = false :=
  ⟨rfl, rfl, rfl, rfl⟩

/-- C8 counterexample: the claim says an increment on an absent entry
    creates it with the default TTL as its expiry, but HINCRBY creates the
    hash with no expiry at all - the expiry of the created entry is none, not
    now + default TTL. -/
theorem increment_creates_without_ttl_cex :
    alookup (incrementMetrics [] defaultPfx "v1" [("views", 1)] 0) (mkVideoKey defaultPfx "v1")
      = some { fields := [("views", 1)], expiry := none }
    ∧ (none : Option ℚ) ≠ some ((0 : ℚ) + defaultTTL) := by
  constructor
  · norm_num [incrementMetrics, liveLookup, alookup, updateEntry, hashIncr, hashSet, slookup,
      List.foldl]
  · simp

/-- C8 (amended): incrementing one numeric field of an existing live entry
    changes only that field - every other field and the expiry are
    unchanged; if the entry is absent, increment creates it with the delta
    as the initial value of that field and with no expiry (the entry
    persists, no TTL is set). -/
theorem increment_frame_effect (st : CacheState) (pfx : List String) (vid : String)
    (f : String) (d : ℤ) (now : ℚ) :
    (∀ e, liveLookup st (mkVideoKey pfx vid) now = some e →
      alookup (incrementMetrics st pfx vid [(f, d)] now) (mkVideoKey pfx vid)
        = some { fields := hashIncr e.fields f d, expiry := e.expiry }
      ∧ slookup (hashIncr e.fields f d) f = some (((slookup e.fields f).getD 0) + (d : ℚ))
      ∧ ∀ g, g ≠ f → slookup (hashIncr e.fields f d) g = slookup e.fields g)
    ∧ (liveLookup st (mkVideoKey pfx vid) now = none →
      alookup (incrementMetrics st pfx vid [(f, d)] now) (mkVideoKey pfx vid)
        = some { fields := [(f, (0 : ℚ) + (d : ℚ))], expiry := none }) := by
  constructor
  · intro e he
    refine ⟨?_, slookup_hashSet_self _ _ _, fun g hg => slookup_hashSet_other _ _ _ _ hg⟩
    simp [incrementMetrics, he, alookup_updateEntry_self, hashIncr]
  · intro he
    simp [incrementMetrics, he, alookup_updateEntry_self, hashIncr, hashSet, slookup]

/-- C8 witness: incrementing views by 3 on a live two-field entry yields
    the old value plus 3 and leaves likes untouched. -/
theorem increment_frame_effect_witness :
    slookup (hashIncr [("views", (10 : ℚ)), ("likes", 2)] "views" 3) "views"
      = some ((slookup [("views", (10 : ℚ)), ("likes", 2)] "views").getD 0 + ((3 : ℤ) : ℚ))
    ∧ slookup (hashIncr [("views", (10 : ℚ)), ("likes", 2)] "views" 3) "likes"
      = slookup [("views", (10 : ℚ)), ("likes", 2)] "likes" :=
  ⟨((increment_frame_effect twoFieldState defaultPfx "v1" "views" 3 0).1
      { fields := [("views", 10), ("likes", 2)], expiry := some 500 }
      (by simp [twoFieldState, liveLookup, alookup, isLive])).2.1,
   ((increment_frame_effect twoFieldState defaultPfx "v1" "views" 3 0).1
      { fields := [("views", 10), ("likes", 2)], expiry := some 500 }
      (by simp [twoFieldState, liveLookup, alookup, isLive])).2.2
    "likes" (by simp)⟩

/-- C5 counterexample: with the three videos of the claim cached in the
    order views-5 first (engagement 0.9), views-8 second (engagement 0.9),
    views-10 third (engagement 0.5), trending(2) returns the views-5 entry
    before the views-8 entry - the sort is stable on engagement_rate alone
    and never breaks ties by view count.  (The returned video_id is the
    constant segment "video", since the code takes segment 1 of the
    prefixed key.) -/
theorem trending_tie_order_cex :
    getTrendingVideos trendingState 0 2 =
      [{ video_id := "video", views := 5, likes := 1, engagement_rate := 9/10 },
       { video_id := "video", views := 8, likes := 2, engagement_rate := 9/10 }] := by
  rw [getTrendingVideos, videosFromCache_trendingState]
  norm_num [sortStable, insertSorted, List.foldl, List.take]

/-- C5 (amended): trending(limit) returns at most limit entries, each drawn
    from the live cache entries, ordered by engagement_rate descending;
    ties are kept in key-scan order, not broken by view count. -/
theorem trending_sorted_by_engagement (st : CacheState) (now : ℚ) (limit : ℕ) :
    (getTrendingVideos st now limit).length ≤ limit
    ∧ (getTrendingVideos st now limit).Pairwise
        (fun a b => b.engagement_rate ≤ a.engagement_rate)
    ∧ (∀ x, x ∈ getTrendingVideos st now limit → x ∈ videosFromCache st now) := by
  refine ⟨?_, ?_, ?_⟩
  · simp [getTrendingVideos, List.length_take]
  · have hp := pairwise_sortStable
      (fun a b : TrendingEntry => decide (b.engagement_rate < a.engagement_rate))
      (fun a b : TrendingEntry => b.engagement_rate ≤ a.engagement_rate)
      (fun a b c hab hbc => le_trans hbc hab)
      (fun a b h => le_of_lt (of_decide_eq_true h))
      (fun a b h => not_lt.mp (of_decide_eq_false h))
      (videosFromCache st now)
    exact List.Pairwise.sublist (List.take_sublist _ _) hp
  · intro x hx
    exact (mem_sortStable _ _ _).mp (List.take_subset _ _ hx)

/-- C5 witness: the views-5 entry returned by trending(2) on the concrete
    state is indeed drawn from the live cache entries. -/
theorem trending_sorted_by_engagement_witness :
    ({ video_id := "video", views := 5, likes := 1, engagement_rate := 9/10 } : TrendingEntry)
      ∈ videosFromCache trendingState 0 :=
  (trending_sorted_by_engagement trendingState 0 2).2.2 _ (by
    rw [getTrendingVideos, videosFromCache_trendingState]
    norm_num [sortStable, insertSorted, List.foldl, List.take])

/-- C9: after any add, no retained window member is older than now minus
    window_size (eviction removes every score at most now - window_size); a
    snapshot returns exactly the retained members, sorted by timestamp; and
    the concrete scenario of the claim - events at t = 0, 100, 200, 400
    with window_size 300 and a snapshot at t = 410 - yields exactly the
    events at t = 200 and t = 400. -/
theorem window_eviction_invariant :
    (∀ (s : List (String × ℚ)) (m : String) (ts now w : ℚ) (p : String × ℚ),
      p ∈ addToProcessingWindow s m ts now w → ¬ p.2 < now - w)
    ∧ (∀ s : List (String × ℚ),
        getWindowEvents s = (windowSorted s).map Prod.fst
        ∧ (windowSorted s).Pairwise (fun p q => p.2 ≤ q.2)
        ∧ (∀ p, p ∈ windowSorted s ↔ p ∈ s)
        ∧ (windowSorted s).length = s.length)
    ∧ getWindowEvents (addToProcessingWindow (addToProcessingWindow (addToProcessingWindow
        (addToProcessingWindow [] "e0" 0 0 300) "e1" 100 100 300) "e2" 200 200 300)
        "e3" 400 400 300) = ["e2", "e3"] := by
  refine ⟨?_, ?_, ?_⟩
  · intro s m ts now w p hp
    have h := (List.mem_filter.mp hp).2
    simp only [decide_eq_true_eq] at h
    exact not_lt.mpr (le_of_lt h)
  · intro s
    refine ⟨rfl, ?_, fun p => mem_sortStable _ _ _, length_sortStable _ _⟩
    exact pairwise_sortStable
      (fun p q : String × ℚ => decide (p.2 < q.2))
      (fun p q : String × ℚ => p.2 ≤ q.2)
      (fun a b c hab hbc => le_trans hab hbc)
      (fun a b h => le_of_lt (of_decide_eq_true h))
      (fun a b h => not_lt.mp (of_decide_eq_false h)) s
  · norm_num [addToProcessingWindow, zadd, zremUpTo, getWindowEvents, windowSorted,
      sortStable, insertSorted, List.foldl, List.filter, String.reduceEq]

/-- C9 witness: the member added at t = 400 survives an add at now = 410
    with window 300, and is indeed not older than 410 - 300. -/
theorem window_eviction_invariant_witness :
    ¬ (("e3", (400 : ℚ)).2 < 410 - 300) :=
  window_eviction_invariant.1 [("e0", 0), ("e1", 100)] "e3" 400 410 300 ("e3", 400) (by
    norm_num [addToProcessingWindow, zadd, zremUpTo, List.filter])

/-- C10: a successful cache get parses exactly the seven expected fields
    from the stored hash, defaulting each absent one to 0 and dropping any
    extra stored field. -/
theorem cache_get_seven_fields (st : CacheState) (pfx : List String) (vid : String)
    (now : ℚ) (e : HashEntry)
    (hfound : alookup st (mkVideoKey pfx vid) = some e)
    (hlive : isLive e now = true)
    (hne : e.fields ≠ []) :
    getVideoMetrics st pfx vid now = some
      { views := (slookup e.fields "views").getD 0
      , likes := (slookup e.fields "likes").getD 0
      , watch_time := (slookup e.fields "watch_time").getD 0
      , unique_users := (slookup e.fields "unique_users").getD 0
      , countries_reached := (slookup e.fields "countries_reached").getD 0
      , engagement_rate := (slookup e.fields "engagement_rate").getD 0
      , avg_watch_time := (slookup e.fields "avg_watch_time").getD 0 } := by
  simp [getVideoMetrics, liveLookup, hfound, hlive, hne, parseRecord]

/-- C10 witness: a hash holding views, an unexpected field foo and
    engagement_rate is returned as the seven-field record with foo dropped
    and the missing fields defaulted to 0. -/
theorem cache_get_seven_fields_witness :
    getVideoMetrics raggedState defaultPfx "v1" 0 = some
      { views := 3, likes := 0, watch_time := 0, unique_users := 0, countries_reached := 0
      , engagement_rate := 1/2, avg_watch_time := 0 } :=
  cache_get_seven_fields raggedState defaultPfx "v1" 0
    { fields := [("views", 3), ("foo", 9), ("engagement_rate", 1/2)], expiry := some 100 }
    (by simp [raggedState, alookup]) (by simp [isLive]) (by simp)

/-- C1 (code-bug evidence): with an empty cache and a durable store holding
    no rows for v1 in the trailing window, the outcome of the resolver is the
    HTTP-500 internal error, not the NotFound the claim promises: the
    HTTPException(404) the code raises is caught by its own blanket
    except-Exception handler and re-raised as a 500. -/
theorem resolver_notfound_swallowed :
    (serviceGetVideoMetrics [] [] "v1" 1000).1 = ResolveOutcome.internalError
    ∧ (serviceGetVideoMetrics [] [] "v1" 1000).1 ≠ ResolveOutcome.notFound := by
  have h : (serviceGetVideoMetrics [] [] "v1" 1000).1 = ResolveOutcome.internalError := rfl
  exact ⟨h, by rw [h]; simp⟩

/-- C2 counterexample: running the rollup save twice for the same bucket
    over the same raw events leaves two aggregate rows for (v1, bucket 0)
    in the table, not exactly one - insert_rows_json appends, it does not
    overwrite. -/
theorem rollup_rerun_duplicates_cex :
    countRowsFor (saveAggregations (saveAggregations [] rollupMetrics) rollupMetrics) "v1" 0 = 2
    ∧ (2 : ℕ) ≠ 1 := by
  have hf : hourFloor 100 = 0 := by
    rw [hourFloor, show ((100 : ℚ) / 3600) = 1/36 by norm_num]
    norm_num [Int.floor_eq_zero_iff, Set.mem_Ico]
  have ha : ((0 : ℚ) ≤ 100) := by norm_num
  have hagg : processHourlyAggregation rollupEvents 100 =
      [("v1", { unique_views := 1, likes := 0, total_watch_time := 10, unique_users := 1,
                countries_reached := 1 })] := by
    have l1 : rollupEvents.filter
        (fun e => decide ((0:ℚ) ≤ e.event_timestamp) && decide (e.event_timestamp < 0 + 3600))
        = rollupEvents := by
      simp [rollupEvents, ha]
      norm_num
    have l2 : videoIds rollupEvents = ["v1"] := by simp [videoIds, rollupEvents]
    simp only [processHourlyAggregation, hf]
    rw [l1, l2]
    simp [rollupEvents, aggForVideo, distinctCount, List.filter]
  constructor
  · have hm : rollupMetrics =
        [("v1", 0, { unique_views := 1, likes := 0, total_watch_time := 10, unique_users := 1,
                     countries_reached := 1, engagement_rate := 0, avg_watch_time := 10 })] := by
      rw [rollupMetrics, processHourlyJob, hagg, hf]
      simp [processAggregationResults]
    rw [hm]
    simp [saveAggregations, rowsToInsert, countRowsFor, List.filter]
  · simp

/-- C2 (amended): re-running the rollup save for the same bucket over the
    same raw events appends the identical row list a second time: the table
    afterwards holds two identical aggregate rows per video for that bucket
    (twice as many as one run leaves), rather than exactly one - the second
    run duplicates instead of overwriting. -/
theorem rollup_rerun_appends (table : List AggRow) (m : List (String × ℚ × AggMetrics))
    (v : String) (ts : ℚ) :
    saveAggregations (saveAggregations table m) m = table ++ rowsToInsert m ++ rowsToInsert m
    ∧ countRowsFor (saveAggregations (saveAggregations [] m) m) v ts
        = 2 * countRowsFor (rowsToInsert m) v ts := by
  constructor
  · simp [saveAggregations]
  · simp [saveAggregations, countRowsFor, List.filter_append, two_mul]

/-- C3 counterexample: over the buckets {views 10, likes 2, rate 0.2} and
    {views 5, likes 4, rate 0.8} the historical query returns engagement
    0.5 - the mean of the per-bucket ratios - while the summed-totals
    derivation the claim requires gives (2+4)/(10+5) = 0.4. -/
theorem historical_avg_ratio_cex :
    getHistoricalMetrics [histRow1, histRow2] "v1" 0 3600 = some
      { views := 15, likes := 6, watch_time := 150, unique_users := 15, countries_reached := 1,
        engagement_rate := 1/2, avg_watch_time := 10 }
    ∧ ((1 : ℚ)/2) ≠ ((2 : ℚ) + 4) / ((10 : ℚ) + 5) := by
  constructor
  · have ha : ((0:ℚ) ≤ 3600) := by norm_num
    simp [getHistoricalMetrics, histRow1, histRow2, List.filter, ha]
    norm_num
  · norm_num

/-- C3 (amended): the historical time-range result sums views, likes,
    watch time and unique users across the matching buckets, but derives
    engagement_rate and avg_watch_time as the arithmetic mean of the
    per-bucket values (SQL AVG), not from the summed totals; on the example
    buckets of the spec {views 10, likes 2} and {views 5, likes 1}, whose
    per-bucket ratios are equal, the averaged value coincides with the
    summed-totals value (2+1)/(10+5) = 0.2. -/
theorem historical_bucket_averaged :
    (∀ (r1 r2 : AggRow) (vid : String) (s e : ℚ),
      r1.video_id = vid → r2.video_id = vid →
      s ≤ r1.timestamp → r1.timestamp ≤ e →
      s ≤ r2.timestamp → r2.timestamp ≤ e →
      getHistoricalMetrics [r1, r2] vid s e = some
        { views := r1.unique_views + r2.unique_views
        , likes := r1.likes + r2.likes
        , watch_time := r1.total_watch_time + r2.total_watch_time
        , unique_users := r1.unique_users + r2.unique_users
        , countries_reached := max r1.countries_reached r2.countries_reached
        , engagement_rate := (r1.engagement_rate + r2.engagement_rate) / 2
        , avg_watch_time := (r1.avg_watch_time + r2.avg_watch_time) / 2 })
    ∧ getHistoricalMetrics [specRow1, specRow2] "v1" 0 3600 = some
      { views := 15, likes := 3, watch_time := 150, unique_users := 15, countries_reached := 1,
        engagement_rate := ((2 : ℚ) + 1) / ((10 : ℚ) + 5), avg_watch_time := 10 } := by
  constructor
  · intro r1 r2 vid s e h1v h2v h1s h1e h2s h2e
    simp [getHistoricalMetrics, List.filter, h1v, h2v, h1s, h1e, h2s, h2e, Nat.zero_max]
  · have ha : ((0:ℚ) ≤ 3600) := by norm_num
    simp [getHistoricalMetrics, specRow1, specRow2, List.filter, ha]
    norm_num

/-- C3 witness: the two-bucket averaging equation instantiated at the
    concrete counterexample rows. -/
theorem historical_bucket_averaged_witness :
    getHistoricalMetrics [histRow1, histRow2] "v1" 0 3600 = some
      { views := histRow1.unique_views + histRow2.unique_views
      , likes := histRow1.likes + histRow2.likes
      , watch_time := histRow1.total_watch_time + histRow2.total_watch_time
      , unique_users := histRow1.unique_users + histRow2.unique_users
      , countries_reached := max histRow1.countries_reached histRow2.countries_reached
      , engagement_rate := (histRow1.engagement_rate + histRow2.engagement_rate) / 2
      , avg_watch_time := (histRow1.avg_watch_time + histRow2.avg_watch_time) / 2 } :=
  historical_bucket_averaged.1 histRow1 histRow2 "v1" 0 3600 rfl rfl
    (by norm_num [histRow1]) (by norm_num [histRow1])
    (by norm_num [histRow2]) (by norm_num [histRow2])

/-- C4 counterexample: the record _aggregate_metrics produces for a single
    view event with watch_time 10 has no avg_watch_time key at all, whereas
    the claim requires the avg_watch_time of the record to equal
    watch_time_total / views = 10. -/
theorem aggregate_missing_avg_watch_time_cex :
    slookup ((slookup (aggregateMetrics singleViewEvents) "v1").getD []) "avg_watch_time" = none
    ∧ (none : Option AggValue) ≠ some (AggValue.num 10) := by
  constructor
  · simp [aggregateMetrics, aggregateMetricsRecord, singleViewEvents, videoIds, distinctCount,
      valueCounts, slookup, List.filter, List.dedup]
  · simp

/-- C4 (amended): records produced by _process_aggregation_results satisfy
    both derivations - engagement_rate = likes/views and avg_watch_time =
    total_watch_time/views, each 0 when views (unique_views) is 0; records
    produced by _aggregate_metrics satisfy the engagement_rate derivation
    but carry no avg_watch_time field at all. -/
theorem aggregation_derivations :
    (∀ (rows : List (String × VideoAgg)) (ts : ℚ) (v : String) (t : ℚ) (m : AggMetrics),
      (v, t, m) ∈ processAggregationResults rows ts →
      m.engagement_rate
          = (if m.unique_views > 0 then (m.likes : ℚ) / (m.unique_views : ℚ) else 0)
      ∧ m.avg_watch_time
          = (if m.unique_views > 0 then m.total_watch_time / (m.unique_views : ℚ) else 0))
    ∧ (∀ (events : List Event) (v : String) (rec : List (String × AggValue)),
      (v, rec) ∈ aggregateMetrics events →
      ∃ (uv lk : ℕ),
        slookup rec "unique_views" = some (AggValue.num uv)
        ∧ slookup rec "likes" = some (AggValue.num lk)
        ∧ slookup rec "engagement_rate"
            = some (AggValue.num (if uv > 0 then (lk : ℚ) / (uv : ℚ) else 0))
        ∧ slookup rec "avg_watch_time" = none) := by
  constructor
  · intro rows ts v t m hmem
    rcases List.mem_map.mp hmem with ⟨p, hp, heq⟩
    have hm := (congrArg (fun q => q.2.2) heq).symm
    subst hm
    exact ⟨rfl, rfl⟩
  · intro events v rec hmem
    rcases List.mem_map.mp hmem with ⟨v', hv, heq⟩
    have hr := (congrArg (fun q => q.2) heq).symm
    subst hr
    refine ⟨distinctCount (((events.filter (fun e => e.video_id == v')).filter
        (fun e => e.event_type == "view")).map (fun e => e.user_id)),
      ((events.filter (fun e => e.video_id == v')).filter
        (fun e => e.event_type == "like")).length, ?_, ?_, ?_, ?_⟩ <;>
      simp [aggregateMetricsRecord, slookup]

/-- C4 witness: the derivations instantiated on a concrete aggregation row
    with 2 unique views, 1 like and 30 total watch time. -/
theorem aggregation_derivations_witness :
    aggMetrics4.engagement_rate
        = (if aggMetrics4.unique_views > 0
            then (aggMetrics4.likes : ℚ) / (aggMetrics4.unique_views : ℚ) else 0)
    ∧ aggMetrics4.avg_watch_time
        = (if aggMetrics4.unique_views > 0
            then aggMetrics4.total_watch_time / (aggMetrics4.unique_views : ℚ) else 0) :=
  aggregation_derivations.1 aggRows4 0 "v1" 0 aggMetrics4
    (by norm_num [processAggregationResults, aggRows4, aggMetrics4])

end YtPipeline
